import Mathlib

/-!
Verification of the go-pjs Java-serialization-stream parser.

This file gives a shallow embedding, in Lean 4, of the relevant parts of the
repository hktalent/go-pjs: a parser for the Java Object Serialization Stream
Protocol.  The repository contains two intertwined decoders sharing one
parser struct (`SerializedObjectParser`):

* a tracing/validating walker (`parseStream`, `readContentElement`,
  `readNewObject`, ..., reading bytes through the `Smooth` cursor, keeping
  the `_handleValue` counter and the `_classDataDescriptions` list, and
  aborting with `log.Panicln` on errors), and
* a value-producing layer (`magic`, `version`, `content`, `parseReference`,
  `listPostProc`, ..., reading through the buffered reader and returning
  `error` values).

Go `byte` values are modelled as `Nat` (each byte read from a stream is
below 256); Go fixed-width arithmetic is modelled with explicit `% 2^w`
reductions exactly where the Go expression types truncate.  Fallible code
returns an explicit result type; `log.Panicln`/`log.Panicf` aborts are a
distinguished `panic` outcome; the walker's unbounded loops are driven by a
fuel parameter with a distinguished out-of-fuel outcome.
-/

namespace GoPjs

/-! ### Wire constants (src/pkg/ph.go) -/

def STREAM_MAGIC : Nat := 0xaced
def STREAM_VERSION : Nat := 5
def TC_NULL : Nat := 0x70
def TC_REFERENCE : Nat := 0x71
def TC_CLASSDESC : Nat := 0x72
def TC_OBJECT : Nat := 0x73
def TC_STRING : Nat := 0x74
def TC_ARRAY : Nat := 0x75
def TC_CLASS : Nat := 0x76
def TC_BLOCKDATA : Nat := 0x77
def TC_ENDBLOCKDATA : Nat := 0x78
def TC_RESET : Nat := 0x79
def TC_BLOCKDATALONG : Nat := 0x7A
def TC_EXCEPTION : Nat := 0x7B
def TC_LONGSTRING : Nat := 0x7C
def TC_PROXYCLASSDESC : Nat := 0x7D
def TC_ENUM : Nat := 0x7E
def baseWireHandle : Nat := 0x7E0000
def SC_WRITE_METHOD : Nat := 0x01
def SC_BLOCK_DATA : Nat := 0x08
def SC_SERIALIZABLE : Nat := 0x02
def SC_EXTERNALIZABLE : Nat := 0x04
def SC_ENUM : Nat := 0x10
def SC_Fail : Nat := 0x00

/-- `STREAM_MAGIC1`/`STREAM_MAGIC2` are referenced by `parseStream` but their
declaration file is missing from the snapshot; the values are pinned by the
source's own check message "Invalid STREAM_MAGIC, should be 0xac ed". -/
def STREAM_MAGIC1 : Nat := 0xAC

def STREAM_MAGIC2 : Nat := 0xED

/-! ### Fixed-width arithmetic helpers -/

/-- Big-endian `uint16` of two bytes, as read by `readUInt16`
(`binary.Read(..., binary.BigEndian, ...)`). -/
def beU16 (b1 b2 : Nat) : Nat := (b1 % 256) * 256 + (b2 % 256)

/-- Big-endian `uint32` of four bytes (`binary.BigEndian.Uint32`). -/
def beU32 (b1 b2 b3 b4 : Nat) : Nat :=
  (b1 % 256) * 2 ^ 24 + (b2 % 256) * 2 ^ 16 + (b3 % 256) * 2 ^ 8 + (b4 % 256)

/-- Reinterpret an unsigned 32-bit value as Go `int32` (two's complement). -/
def asInt32 (n : Nat) : Int :=
  if n % 2 ^ 32 < 2 ^ 31 then ((n % 2 ^ 32 : Nat) : Int)
  else ((n % 2 ^ 32 : Nat) : Int) - 2 ^ 32

/-- Go `int32` wraparound: reduce an integer into `[-2^31, 2^31)` (the
result of an `int32` arithmetic operation that overflowed). -/
def wrapInt32 (n : Int) : Int :=
  if n % 2 ^ 32 < 2 ^ 31 then n % 2 ^ 32 else n % 2 ^ 32 - 2 ^ 32

/-- The length computed by `readUtf` (src/unnamed/part_001:380):
`len = (int(b1<<8) & 0xff00) + int(b2&0xff)`.
`b1` is a Go `byte`, so `b1<<8` is computed in `uint8` and truncates to 0
before the widening to `int` and the mask. -/
def utfLen (b1 b2 : Nat) : Nat :=
  Nat.land (((b1 % 256) <<< 8) % 256) 0xff00 + Nat.land (b2 % 256) 0xff

/-- The field count computed by `readFields` (src/unnamed/part_001:791):
`count = (uint(b1<<8) & 0xff00) + uint(b2&0xff)`, with the same `uint8`
truncation before widening as in `readUtf`. -/
def fieldsCount (b1 b2 : Nat) : Nat :=
  Nat.land (((b1 % 256) <<< 8) % 256) 0xff00 + Nat.land (b2 % 256) 0xff

/-- The length computed by `readLongBlockData` (src/unnamed/part_001:1537):
each summand `uint32(bi<<k) & mask` shifts in `uint8` (truncating to 0 for
`k ≥ 8`) before widening to `uint32` and masking. -/
def longBlockLen (b1 b2 b3 b4 : Nat) : Nat :=
  Nat.land (((b1 % 256) <<< 24) % 256) 0xff000000 +
    Nat.land (((b2 % 256) <<< 16) % 256) 0xff0000 +
    Nat.land (((b3 % 256) <<< 8) % 256) 0xff00 +
    Nat.land (b4 % 256) 0xff

/-- The truncating 4-byte "int" decode shared by `readProxyClassDescInfo`
(interface count, line 886) and `readNewArray` (array size, line 1388); the
same shift-in-`uint8`-then-mask pattern as `readLongBlockData`. -/
def i32TruncLen (b1 b2 b3 b4 : Nat) : Nat :=
  Nat.land (((b1 % 256) <<< 24) % 256) 0xff000000 +
    Nat.land (((b2 % 256) <<< 16) % 256) 0xff0000 +
    Nat.land (((b3 % 256) <<< 8) % 256) 0xff00 +
    Nat.land (b4 % 256) 0xff

/-- The 8-byte length computed by `readLongUtf` (src/unnamed/part_001:759):
every summand but the last shifts in `uint8` first and truncates to 0. -/
def longUtfLen (b1 b2 b3 b4 b5 b6 b7 b8 : Nat) : Nat :=
  Nat.land (((b1 % 256) <<< 56) % 256) 0xff00000000000000 +
    Nat.land (((b2 % 256) <<< 48) % 256) 0xff000000000000 +
    Nat.land (((b3 % 256) <<< 40) % 256) 0xff0000000000 +
    Nat.land (((b4 % 256) <<< 32) % 256) 0xff00000000 +
    Nat.land (((b5 % 256) <<< 24) % 256) 0xff000000 +
    Nat.land (((b6 % 256) <<< 16) % 256) 0xff0000 +
    Nat.land (((b7 % 256) <<< 8) % 256) 0xff00 +
    Nat.land (b8 % 256) 0xff

/-! ### Class model (src/pkg/ClassFieldImp.go, src/pkg/ClassDetailsImp.go) -/

/-- `ClassField`: type code, field name, className1. -/
structure ClassField where
  typeCode : Nat
  name : String
  className1 : String
deriving Repr, DecidableEq

def NewClassField (typeCode : Nat) : ClassField :=
  { typeCode := typeCode, name := "", className1 := "" }

/-- `ClassDetails`: one class of a class data description. -/
structure ClassDetails where
  className : String
  refHandle : Int
  classDescFlags : Nat
  fieldDescriptions : List ClassField
deriving Repr, DecidableEq

def NewClassDetails (className : String) : ClassDetails :=
  { className := className, refHandle := -1, classDescFlags := 0,
    fieldDescriptions := [] }

def ClassDetails.isSC_SERIALIZABLE (cd : ClassDetails) : Bool :=
  Nat.land cd.classDescFlags 0x02 == 0x02

def ClassDetails.isSC_EXTERNALIZABLE (cd : ClassDetails) : Bool :=
  Nat.land cd.classDescFlags 0x04 == 0x04

def ClassDetails.isSC_WRITE_METHOD (cd : ClassDetails) : Bool :=
  Nat.land cd.classDescFlags 0x01 == 0x01

def ClassDetails.isSC_BLOCK_DATA (cd : ClassDetails) : Bool :=
  Nat.land cd.classDescFlags 0x08 == 0x08

/-- `ClassDataDesc`: the list of classes (class, super class, ...) making up
one class data description. -/
structure ClassDataDesc where
  classDetails : List ClassDetails
deriving Repr, DecidableEq

def NewClassDataDesc : ClassDataDesc := ⟨[]⟩

/-- `getClassDetails`: returns `nil` (here `none`) when the index is past the
end of the list. -/
def getClassDetails (cdd : ClassDataDesc) (index : Nat) : Option ClassDetails :=
  cdd.classDetails.get? index

def getClassCount (cdd : ClassDataDesc) : Nat := cdd.classDetails.length

/-- `buildClassDataDescFromIndex` (src/pkg/ClassDetailsImp.go:181): despite
its documentation ("A ClassDataDesc describing the classes from the given
index"), the body copies ALL class details and ignores `index`. -/
def buildClassDataDescFromIndex (cdd : ClassDataDesc) (_index : Nat) :
    ClassDataDesc :=
  ⟨cdd.classDetails⟩

def addClass (cdd : ClassDataDesc) (className : String) : ClassDataDesc :=
  ⟨cdd.classDetails ++ [NewClassDetails className]⟩

/-- `addSuperClassDesc`: append the super description's class details
(no-op when the super description is `nil`). -/
def addSuperClassDesc (cdd : ClassDataDesc) (scdd : Option ClassDataDesc) :
    ClassDataDesc :=
  match scdd with
  | none => cdd
  | some sc => ⟨cdd.classDetails ++ sc.classDetails⟩

/-- Modify the last element of a list; `none` when the list is empty
(indexing `[len-1]` on an empty Go slice panics). -/
def modifyLast {α : Type} (f : α → α) : List α → Option (List α)
  | [] => none
  | [a] => some [f a]
  | a :: b :: rest => (modifyLast f (b :: rest)).map (a :: ·)

def setLastClassHandle (cdd : ClassDataDesc) (handle : Int) :
    Option ClassDataDesc :=
  (modifyLast (fun cd => { cd with refHandle := handle }) cdd.classDetails).map
    ClassDataDesc.mk

def setLastClassDescFlags (cdd : ClassDataDesc) (flags : Nat) :
    Option ClassDataDesc :=
  (modifyLast (fun cd => { cd with classDescFlags := flags })
    cdd.classDetails).map ClassDataDesc.mk

def addFieldToLastClass (cdd : ClassDataDesc) (typeCode : Nat) :
    Option ClassDataDesc :=
  (modifyLast
    (fun cd =>
      { cd with fieldDescriptions := cd.fieldDescriptions ++ [NewClassField typeCode] })
    cdd.classDetails).map ClassDataDesc.mk

def setLastFieldName (cdd : ClassDataDesc) (name : String) :
    Option ClassDataDesc :=
  (modifyLast
    (fun cd =>
      match modifyLast (fun cf => { cf with name := name }) cd.fieldDescriptions with
      | some l => { cd with fieldDescriptions := l }
      | none => cd)
    cdd.classDetails).map ClassDataDesc.mk

def setLastFieldClassName1 (cdd : ClassDataDesc) (cn1 : String) :
    Option ClassDataDesc :=
  (modifyLast
    (fun cd =>
      match modifyLast (fun cf => { cf with className1 := cn1 }) cd.fieldDescriptions with
      | some l => { cd with fieldDescriptions := l }
      | none => cd)
    cdd.classDetails).map ClassDataDesc.mk

/-! ### The classDesc REFERENCE lookup (src/unnamed/part_001:933-944)

`readClassDesc`'s `TC_REFERENCE` branch iterates over all recorded class
data descriptions; for each it runs
`for classIndex := 0; classIndex < cdd.getClassCount(); { classIndex += 1;
if cdd.getClassDetails(classIndex).getHandle() == refHandle { return
cdd.buildClassDataDescFromIndex(classIndex) } }`.
The increment happens before the lookup, so indices `1 .. count` are
examined (index 0 is never a candidate) and the final probe at index
`count` yields `nil`, whose `getHandle()` call dereferences a nil pointer
(a Go runtime panic). -/

inductive LookupRes where
  | found : ClassDataDesc → LookupRes
  | panicked : LookupRes
deriving Repr, DecidableEq

/-- The inner `classIndex` loop over one class data description, recursing
on `rem = getClassCount cdd - classIndex` (the Go loop condition
`classIndex < cdd.getClassCount()` is exactly `0 < rem`, and each iteration
increments `classIndex`).  `none` means the loop fell through without a
match (possible only for an empty description). -/
def lookupLoopInner (cdd : ClassDataDesc) (refHandle : Int) :
    Nat → Nat → Option LookupRes
  | 0, _ => none
  | rem + 1, classIndex =>
    let ci := classIndex + 1
    match getClassDetails cdd ci with
    | none => some .panicked
    | some cd =>
      if cd.refHandle == refHandle then
        some (.found (buildClassDataDescFromIndex cdd ci))
      else lookupLoopInner cdd refHandle rem ci

/-- The full reference lookup of `readClassDesc`: falling off the outer loop
hits `log.Panicln("Error: Invalid classDesc reference ...")`. -/
def lookupClassDesc (cdds : List ClassDataDesc) (refHandle : Int) : LookupRes :=
  match cdds with
  | [] => .panicked
  | cdd :: rest =>
    match lookupLoopInner cdd refHandle (getClassCount cdd) 0 with
    | some r => r
    | none => lookupClassDesc rest refHandle

/-! ### classDescFlags validation (src/unnamed/part_001:455-468) -/

/-- The panic conditions of `readClassDescInfo`'s flag validation:
if SC_SERIALIZABLE then SC_EXTERNALIZABLE or SC_BLOCK_DATA is fatal;
else if SC_EXTERNALIZABLE then SC_WRITE_METHOD is fatal;
else any nonzero flag byte is fatal. -/
def classDescFlagsFatal (b1 : Nat) : Bool :=
  if Nat.land b1 SC_SERIALIZABLE == SC_SERIALIZABLE then
    (Nat.land b1 SC_EXTERNALIZABLE == SC_EXTERNALIZABLE) ||
      (Nat.land b1 SC_BLOCK_DATA == SC_BLOCK_DATA)
  else if Nat.land b1 SC_EXTERNALIZABLE == SC_EXTERNALIZABLE then
    Nat.land b1 SC_WRITE_METHOD == SC_WRITE_METHOD
  else b1 != SC_Fail

/-- The action selected by `classData` (src/unnamed/part_001:2227) from
`cls.flags & 0x0f`.  Any combination not among the four named cases returns
the "unable to deserialize class with flags" error. -/
inductive ClassDataAction where
  | readValues
  | readValuesThenAnns
  | errVersion1External
  | readAnnsOnly
  | errUnknownFlags
deriving Repr, DecidableEq

def classDataDispatch (flags : Nat) : ClassDataAction :=
  match Nat.land flags 0x0f with
  | 0x02 => .readValues
  | 0x03 => .readValuesThenAnns
  | 0x04 => .errVersion1External
  | 0x0c => .readAnnsOnly
  | _ => .errUnknownFlags

/-! ### The value-layer prelude readers (src/unnamed/part_001:1750-1773) -/

/-- `magic()`: reads a big-endian `uint16` from the stream and compares it to
`STREAM_MAGIC` (0xACED); a short read is an error. -/
def magicFn (stream : List Nat) : Except String (List Nat) :=
  match stream with
  | b1 :: b2 :: rest =>
    if beU16 b1 b2 != STREAM_MAGIC then
      .error "magic value STREAM_MAGIC not found"
    else .ok rest
  | _ => .error "error reading uint16"

/-- `version()`: reads a big-endian `uint16` but compares only its low byte
(`byte(ver) != STREAM_VERSION`) against 5. -/
def versionFn (stream : List Nat) : Except String (List Nat) :=
  match stream with
  | b1 :: b2 :: rest =>
    if beU16 b1 b2 % 256 != STREAM_VERSION then
      .error "protocol version not recognized"
    else .ok rest
  | _ => .error "error reading uint16"

/-! ### parseReference (src/unnamed/part_001:1963-1980) -/

/-- `parseReference`: reads a big-endian `int32` and computes
`i := int(refIdx - refIDMask)` — the subtraction happens in `int32`, so it
wraps to a large positive index for wire handles
`0x80000000..0x807DFFFF` before the widening to `int` — then assigns
`ref = handles[i]` only when `i > -1 && i < len(handles)`; otherwise `ref`
remains `nil` and no error is produced. -/
def parseReference (handles : List Nat) (stream : List Nat) :
    Except String (Option Nat × List Nat) :=
  match stream with
  | b1 :: b2 :: b3 :: b4 :: rest =>
    let refIdx : Int := asInt32 (beU32 b1 b2 b3 b4)
    let i : Int := wrapInt32 (refIdx - 0x7e0000)
    if -1 < i ∧ i < (handles.length : Int) then
      .ok (handles.get? i.toNat, rest)
    else
      .ok (none, rest)
  | _ => .error "error reading reference index"

/-! ### Post-processing (src/unnamed/part_001:2308-2360) -/

/-- Values appearing in a post-processor's annotation list. -/
inductive PPVal where
  | bytes : List Nat → PPVal
  | str : String → PPVal
  | arr : List PPVal → PPVal
deriving Repr

/-- Go map assignment `fields[k] = v` on an association-list model. -/
def mapSet (fields : List (String × PPVal)) (k : String) (v : PPVal) :
    List (String × PPVal) :=
  match fields with
  | [] => [(k, v)]
  | (k0, v0) :: rest =>
    if k0 == k then (k, v) :: rest else (k0, v0) :: mapSet rest k v

/-- `postProcSize`: requires `data[0]` to be a byte slice with at least
`offset+4` bytes and reads a big-endian `int32` at `offset`. -/
def postProcSize (data : List PPVal) (offset : Nat) : Except String Int :=
  match data with
  | [] => .error "invalid data: at least one element required"
  | d0 :: _ =>
    match d0 with
    | .bytes b =>
      if b.length < offset + 4 then
        .error "incorrect data at position 0"
      else
        match b.drop offset with
        | c1 :: c2 :: c3 :: c4 :: _ => .ok (asInt32 (beU32 c1 c2 c3 c4))
        | _ => .error "error reading size"
    | _ => .error "unexpected data at position 0"

/-- `listPostProc` (src/unnamed/part_001:2343): reads `size` from
`data[0]`, requires `len(data) == size+1`, then assigns
`fields["value"] = data[1:size]` when `size > 1` (the Go slice `data[1:size]`
has `size-1` elements) and the empty slice otherwise. -/
def listPostProc (fields : List (String × PPVal)) (data : List PPVal) :
    Except String (List (String × PPVal)) :=
  match postProcSize data 0 with
  | .error e => .error e
  | .ok size =>
    if (data.length : Int) != size + 1 then
      .error "incorrect number of elements"
    else if 1 < size then
      .ok (mapSet fields "value" (.arr ((data.drop 1).take (size.toNat - 1))))
    else
      .ok (mapSet fields "value" (.arr []))

/-! ### Parser state and the Smooth cursor
(src/pkg/model.go, src/pkg/ClassDetailsImp.go:285-310)

`Smooth` keeps a push-back buffer `data` in front of the buffered reader
`rd`; `nPos` counts only the pops served from the push-back buffer, and
`size() = maxDataBlockSize - nPos`.  We carry `size` directly (as an `Int`):
it is decremented exactly when `nPos` is incremented.  Crucially, both
`pop` and `peek` discard the read error of the underlying `readUInt8`
(`b, _ := this._p.readUInt8()`), so at end of input they fabricate the
zero byte instead of failing. -/

structure PState where
  pb : List Nat
  rd : List Nat
  size : Int
  handleValue : Nat
  cdds : List ClassDataDesc
  indent : Nat
deriving Repr, DecidableEq

/-- `Smooth.pop`: serve from the push-back buffer (counted by `nPos`),
else read a byte from `rd` (uncounted), else fabricate 0 (EOF error
discarded). -/
def smoothPop (s : PState) : Nat × PState :=
  match s.pb with
  | b :: rest => (b, { s with pb := rest, size := s.size - 1 })
  | [] =>
    match s.rd with
    | b :: rest => (b, { s with rd := rest })
    | [] => (0, s)

/-- `Smooth.peek`: return the buffered byte, else read one from `rd` and
push it back; at EOF the discarded-error zero byte is pushed back. -/
def smoothPeek (s : PState) : Nat × PState :=
  match s.pb with
  | b :: _ => (b, s)
  | [] =>
    match s.rd with
    | b :: rest => (b, { s with pb := [b], rd := rest })
    | [] => (0, { s with pb := [0] })

/-- Pop `n` bytes, returning them in order. -/
def popN : Nat → PState → List Nat × PState
  | 0, s => ([], s)
  | n + 1, s =>
    let (b, s) := smoothPop s
    let (bs, s2) := popN n s
    (b :: bs, s2)

/-- `newHandle1`: return the current `_handleValue` and increment it. -/
def newHandle1 (s : PState) : Int × PState :=
  ((s.handleValue : Int), { s with handleValue := s.handleValue + 1 })

def incIndent (s : PState) : PState := { s with indent := s.indent + 2 }

/-- Outcome of a walker computation: a value and the next state, a
`log.Panicln`/`log.Panicf` abort, or fuel exhaustion (the Go code loops
forever). -/
inductive WRes (α : Type) where
  | ok : α → PState → WRes α
  | panic : WRes α
  | fuel : WRes α
deriving Repr, DecidableEq

def WRes.bind {α β : Type} (r : WRes α) (f : α → PState → WRes β) : WRes β :=
  match r with
  | .ok a s => f a s
  | .panic => .panic
  | .fuel => .fuel

/-- `decreaseIndent`: panics when the indent string is shorter than 2. -/
def decIndent (s : PState) : WRes Unit :=
  if s.indent < 2 then .panic else .ok () { s with indent := s.indent - 2 }

def liftOpt {α : Type} (o : Option α) (s : PState) : WRes α :=
  match o with
  | some a => .ok a s
  | none => .panic

/-- String built by the walker from raw bytes (`fmt.Sprintf("%c", b)`). -/
def bytesToStr (bs : List Nat) : String :=
  String.mk (bs.map Char.ofNat)

/-! ### Non-recursive walker readers (src/unnamed/part_001) -/

/-- `readUtf`: two length bytes combined with the truncating shift
(`utfLen`), then that many content bytes; never fails. -/
def readUtf (s : PState) : String × PState :=
  let (b1, s) := smoothPop s
  let (b2, s) := smoothPop s
  let (bs, s) := popN (utfLen b1 b2) s
  (bytesToStr bs, s)

/-- `readLongUtf`: eight length bytes combined with the truncating shift
(`longUtfLen`), then that many content bytes. -/
def readLongUtf (s : PState) : String × PState :=
  let (b1, s) := smoothPop s
  let (b2, s) := smoothPop s
  let (b3, s) := smoothPop s
  let (b4, s) := smoothPop s
  let (b5, s) := smoothPop s
  let (b6, s) := smoothPop s
  let (b7, s) := smoothPop s
  let (b8, s) := smoothPop s
  let (bs, s) := popN (longUtfLen b1 b2 b3 b4 b5 b6 b7 b8) s
  (bytesToStr bs, s)

/-- `readNullReference`: pop the tag and panic unless it is `TC_NULL`. -/
def readNullReference (s : PState) : WRes Unit :=
  let (b1, s) := smoothPop s
  if b1 != TC_NULL then .panic else .ok () s

/-- `readPrevObject`: pop the `TC_REFERENCE` tag, then a proper big-endian
`uint32` handle (`binary.BigEndian.Uint32`), returned as `int`. -/
def readPrevObject (s : PState) : WRes Int :=
  let (b1, s) := smoothPop s
  if b1 != TC_REFERENCE then .panic else
  let s := incIndent s
  let (h1, s) := smoothPop s
  let (h2, s) := smoothPop s
  let (h3, s) := smoothPop s
  let (h4, s) := smoothPop s
  (decIndent s).bind fun _ s => .ok ((beU32 h1 h2 h3 h4 : Nat) : Int) s

/-- `handleReset`: the body is empty — neither the handle counter nor the
class-description list is touched, and the `TC_RESET` tag byte is not
consumed. -/
def handleReset (s : PState) : PState := s

/-- `readException`: the body is empty. -/
def readException (s : PState) : PState := s

/-- `readBlockData`: tag check, one length byte (`& 0xFF`), then that many
content bytes. -/
def readBlockData (s : PState) : WRes Unit :=
  let (b1, s) := smoothPop s
  if b1 != TC_BLOCKDATA then .panic else
  let s := incIndent s
  let (lb, s) := smoothPop s
  let len := Nat.land lb 0xFF
  let (_, s) := popN len s
  decIndent s

/-- `readLongBlockData`: tag check, four length bytes combined with the
truncating shift (`longBlockLen`), then that many content bytes. -/
def readLongBlockData (s : PState) : WRes Unit :=
  let (b1, s) := smoothPop s
  if b1 != TC_BLOCKDATALONG then .panic else
  let s := incIndent s
  let (c1, s) := smoothPop s
  let (c2, s) := smoothPop s
  let (c3, s) := smoothPop s
  let (c4, s) := smoothPop s
  let (_, s) := popN (longBlockLen c1 c2 c3 c4) s
  decIndent s

/-- `readTC_STRING`: tag check, new handle, UTF body. -/
def readTC_STRING (s : PState) : WRes String :=
  let (b1, s) := smoothPop s
  if b1 != TC_STRING then .panic else
  let s := incIndent s
  let (_, s) := newHandle1 s
  let (val, s) := readUtf s
  (decIndent s).bind fun _ s => .ok val s

/-- `readTC_LONGSTRING`: tag check, new handle, long-UTF body. -/
def readTC_LONGSTRING (s : PState) : WRes String :=
  let (b1, s) := smoothPop s
  if b1 != TC_LONGSTRING then .panic else
  let s := incIndent s
  let (_, s) := newHandle1 s
  let (val, s) := readLongUtf s
  (decIndent s).bind fun _ s => .ok val s

/-- `readNewString`: dispatch on the peeked tag; a reference yields the
placeholder string `[TC_REF]`; anything else panics. -/
def readNewString (s : PState) : WRes String :=
  let (x, s) := smoothPeek s
  if x = TC_STRING then readTC_STRING s
  else if x = TC_LONGSTRING then readTC_LONGSTRING s
  else if x = TC_REFERENCE then
    (readPrevObject s).bind fun _ s => .ok "[TC_REF]" s
  else .panic

/-- Primitive field readers (`readByteField` ... `readDoubleField`): fixed
byte counts, no failure. -/
def readByteField (s : PState) : PState := (smoothPop s).2

def readCharField (s : PState) : PState := (popN 2 s).2

def readFloatField (s : PState) : PState := (popN 4 s).2

def readIntField (s : PState) : PState := (popN 4 s).2

def readLongField (s : PState) : PState := (popN 8 s).2

def readShortField (s : PState) : PState := (popN 2 s).2

def readBooleanField (s : PState) : PState := (smoothPop s).2

def readDoubleField (s : PState) : PState := (popN 8 s).2

/-- The valid field type codes of `readFieldDesc` / `readFieldValue`
(`B C D F I J S Z [ L`); anything else panics. -/
def validTypeCode (b : Nat) : Bool :=
  b == 0x42 || b == 0x43 || b == 0x44 || b == 0x46 || b == 0x49 ||
    b == 0x4A || b == 0x53 || b == 0x5A || b == 0x5B || b == 0x4C

/-! ### The recursive walker (src/unnamed/part_001)

Every function below embeds the Go walker function of the same name.  The
Go code recurses without bound (content elements nest, and several loops
can fail to make progress), so each function takes a fuel argument; every
call from one walker function to another spends one unit.  `WRes.fuel`
marks fuel exhaustion — in particular a Go run that loops forever is
`.fuel` for every fuel value. -/

set_option maxHeartbeats 3200000 in
mutual

/-- `readContentElement`: dispatch on the peeked tag; the dispatched reader
consumes the tag.  In the Go switch, the `TC_STRING` and `TC_CLASSDESC`
cases have empty bodies (they do not fall through to the following case),
and the default case returns an error without consuming the tag. -/
def readContentElement : Nat → PState → WRes Bool
  | 0, _ => .fuel
  | fuel + 1, s =>
    let (tc, s) := smoothPeek s
    if tc = TC_OBJECT then (readNewObject fuel s).bind fun _ s => .ok true s
    else if tc = TC_CLASS then (readNewClass fuel s).bind fun _ s => .ok true s
    else if tc = TC_ARRAY then (readNewArray fuel s).bind fun _ s => .ok true s
    else if tc = TC_STRING then .ok true s
    else if tc = TC_LONGSTRING then
      (readNewString s).bind fun _ s => .ok true s
    else if tc = TC_ENUM then (readNewEnum fuel s).bind fun _ s => .ok true s
    else if tc = TC_CLASSDESC then .ok true s
    else if tc = TC_PROXYCLASSDESC then
      (readNewClassDesc fuel s).bind fun _ s => .ok true s
    else if tc = TC_REFERENCE then
      (readPrevObject s).bind fun _ s => .ok true s
    else if tc = TC_NULL then
      (readNullReference s).bind fun _ s => .ok true s
    else if tc = TC_EXCEPTION then .ok true (readException s)
    else if tc = TC_RESET then .ok true (handleReset s)
    else if tc = TC_BLOCKDATA then
      (readBlockData s).bind fun _ s => .ok true s
    else if tc = TC_BLOCKDATALONG then
      (readLongBlockData s).bind fun _ s => .ok true s
    else .ok false s
termination_by structural fuel _ => fuel

/-- `readNewEnum`: tag check, classDesc, new handle, constant name. -/
def readNewEnum : Nat → PState → WRes Unit
  | 0, _ => .fuel
  | fuel + 1, s =>
    let (b1, s) := smoothPop s
    if b1 != TC_ENUM then .panic else
    let s := incIndent s
    (readClassDesc fuel s).bind fun _ s =>
    let (_, s) := newHandle1 s
    (readNewString s).bind fun _ s =>
    decIndent s
termination_by structural fuel _ => fuel

/-- The peek/readContentElement/pop-0x78 loop shared verbatim by
`readClassAnnotation` and `readClassData`'s objectAnnotation section.  The
error result of `readContentElement` is ignored, so an element that
consumes nothing (an unknown tag, or the empty `TC_STRING`/`TC_CLASSDESC`
switch cases) loops forever. -/
def annUntilEnd : Nat → PState → WRes Unit
  | 0, _ => .fuel
  | fuel + 1, s =>
    let (x, s) := smoothPeek s
    if x = TC_ENDBLOCKDATA then
      let (_, s) := smoothPop s
      .ok () s
    else
      (readContentElement fuel s).bind fun _ s => annUntilEnd fuel s
termination_by structural fuel _ => fuel

/-- `readClassAnnotation`: indent, loop to `TC_ENDBLOCKDATA`, unindent. -/
def readClassAnnot : Nat → PState → WRes Unit
  | 0, _ => .fuel
  | fuel + 1, s =>
    let s := incIndent s
    (annUntilEnd fuel s).bind fun _ s => decIndent s
termination_by structural fuel _ => fuel

/-- `readClassDesc`: admits `TC_CLASSDESC`, `TC_PROXYCLASSDESC`,
`TC_NULL` (absent), and `TC_REFERENCE` (resolved through
`lookupClassDesc`); any other tag panics. -/
def readClassDesc : Nat → PState → WRes (Option ClassDataDesc)
  | 0, _ => .fuel
  | fuel + 1, s =>
    let (b1, s) := smoothPeek s
    if b1 = TC_CLASSDESC ∨ b1 = TC_PROXYCLASSDESC then
      (readNewClassDesc fuel s).bind fun cdd s => .ok (some cdd) s
    else if b1 = TC_NULL then
      (readNullReference s).bind fun _ s => .ok (none : Option ClassDataDesc) s
    else if b1 = TC_REFERENCE then
      (readPrevObject s).bind fun refHandle s =>
      match lookupClassDesc s.cdds refHandle with
      | .found cdd => .ok (some cdd) s
      | .panicked => .panic
    else .panic
termination_by structural fuel _ => fuel

/-- `readSuperClassDesc`: indent, delegate to `readClassDesc`, unindent. -/
def readSuperClassDesc : Nat → PState → WRes (Option ClassDataDesc)
  | 0, _ => .fuel
  | fuel + 1, s =>
    let s := incIndent s
    (readClassDesc fuel s).bind fun cdd s =>
    (decIndent s).bind fun _ s => .ok cdd s
termination_by structural fuel _ => fuel

/-- `readNewClassDesc`: dispatch to `readTC_CLASSDESC` or
`readTC_PROXYCLASSDESC` and append the result to
`_classDataDescriptions`. -/
def readNewClassDesc : Nat → PState → WRes ClassDataDesc
  | 0, _ => .fuel
  | fuel + 1, s =>
    let (b1, s) := smoothPeek s
    if b1 = TC_CLASSDESC then
      (readTC_CLASSDESC fuel s).bind fun cdd s =>
        .ok cdd { s with cdds := s.cdds ++ [cdd] }
    else if b1 = TC_PROXYCLASSDESC then
      (readTC_PROXYCLASSDESC fuel s).bind fun cdd s =>
        .ok cdd { s with cdds := s.cdds ++ [cdd] }
    else .panic
termination_by structural fuel _ => fuel

/-- `readTC_CLASSDESC`: tag check, class name (UTF), 8 serialVersionUID
bytes, handle assignment, then `readClassDescInfo`. -/
def readTC_CLASSDESC : Nat → PState → WRes ClassDataDesc
  | 0, _ => .fuel
  | fuel + 1, s =>
    let (b1, s) := smoothPop s
    if b1 != TC_CLASSDESC then .panic else
    let s := incIndent s
    let s := incIndent s
    let (name, s) := readUtf s
    let cdd := addClass NewClassDataDesc name
    (decIndent s).bind fun _ s =>
    let (_, s) := popN 8 s
    let (h, s) := newHandle1 s
    (liftOpt (setLastClassHandle cdd h) s).bind fun cdd s =>
    (readClassDescInfo fuel cdd s).bind fun cdd s =>
    (decIndent s).bind fun _ s => .ok cdd s
termination_by structural fuel _ => fuel

/-- `readTC_PROXYCLASSDESC`: tag check, synthetic class name, handle
assignment, then `readProxyClassDescInfo`. -/
def readTC_PROXYCLASSDESC : Nat → PState → WRes ClassDataDesc
  | 0, _ => .fuel
  | fuel + 1, s =>
    let (b1, s) := smoothPop s
    if b1 != TC_PROXYCLASSDESC then .panic else
    let s := incIndent s
    let cdd := addClass NewClassDataDesc "<Dynamic Proxy Class>"
    let (h, s) := newHandle1 s
    (liftOpt (setLastClassHandle cdd h) s).bind fun cdd s =>
    (readProxyClassDescInfo fuel cdd s).bind fun cdd s =>
    (decIndent s).bind fun _ s => .ok cdd s
termination_by structural fuel _ => fuel

/-- `readClassDescInfo`: flags byte (stored, then validated with the fatal
conditions of `classDescFlagsFatal`), fields, class annotation payload,
super class description. -/
def readClassDescInfo : Nat → ClassDataDesc → PState → WRes ClassDataDesc
  | 0, _, _ => .fuel
  | fuel + 1, cdd, s =>
    let (b1, s) := smoothPop s
    (liftOpt (setLastClassDescFlags cdd b1) s).bind fun cdd s =>
    if classDescFlagsFatal b1 then .panic else
    (readFields fuel cdd s).bind fun cdd s =>
    (readClassAnnot fuel s).bind fun _ s =>
    (readSuperClassDesc fuel s).bind fun scdd s =>
    .ok (addSuperClassDesc cdd scdd) s
termination_by structural fuel _ _ => fuel

/-- `readProxyClassDescInfo`: truncated interface count, that many UTF
names, class annotation payload, super class description. -/
def readProxyClassDescInfo : Nat → ClassDataDesc → PState → WRes ClassDataDesc
  | 0, _, _ => .fuel
  | fuel + 1, cdd, s =>
    let (c1, s) := smoothPop s
    let (c2, s) := smoothPop s
    let (c3, s) := smoothPop s
    let (c4, s) := smoothPop s
    let count := i32TruncLen c1 c2 c3 c4
    let s := incIndent s
    (proxyIfaceLoop fuel count s).bind fun _ s =>
    (decIndent s).bind fun _ s =>
    (readClassAnnot fuel s).bind fun _ s =>
    (readSuperClassDesc fuel s).bind fun scdd s =>
    .ok (addSuperClassDesc cdd scdd) s
termination_by structural fuel _ _ => fuel

/-- The proxy interface-name loop: indent, UTF, unindent, `count` times. -/
def proxyIfaceLoop : Nat → Nat → PState → WRes Unit
  | 0, _, _ => .fuel
  | _ + 1, 0, s => .ok () s
  | fuel + 1, count + 1, s =>
    let s := incIndent s
    let (_, s) := readUtf s
    (decIndent s).bind fun _ s => proxyIfaceLoop fuel count s
termination_by structural fuel _ _ => fuel

/-- `readFields`: truncated field count, then that many field
descriptors (with the surrounding indent bookkeeping when the count is
positive). -/
def readFields : Nat → ClassDataDesc → PState → WRes ClassDataDesc
  | 0, _, _ => .fuel
  | fuel + 1, cdd, s =>
    let (b1, s) := smoothPop s
    let (b2, s) := smoothPop s
    let count := fieldsCount b1 b2
    if count = 0 then .ok cdd s
    else
      let s := incIndent s
      (readFieldsLoop fuel count cdd s).bind fun cdd s =>
      (decIndent s).bind fun _ s => .ok cdd s

def readFieldsLoop : Nat → Nat → ClassDataDesc → PState → WRes ClassDataDesc
  | 0, _, _, _ => .fuel
  | _ + 1, 0, cdd, s => .ok cdd s
  | fuel + 1, count + 1, cdd, s =>
    let s := incIndent s
    (readFieldDesc fuel cdd s).bind fun cdd s =>
    (decIndent s).bind fun _ s => readFieldsLoop fuel count cdd s
termination_by structural fuel _ _ _ => fuel

/-- `readFieldDesc`: type code (recorded before validation; an unknown code
panics), field name, and — for `[`/`L` fields — a className1 string. -/
def readFieldDesc : Nat → ClassDataDesc → PState → WRes ClassDataDesc
  | 0, _, _ => .fuel
  | _ + 1, cdd, s =>
    let (b1, s) := smoothPop s
    (liftOpt (addFieldToLastClass cdd b1) s).bind fun cdd s =>
    if !validTypeCode b1 then .panic else
    let s := incIndent s
    let (fname, s) := readUtf s
    (liftOpt (setLastFieldName cdd fname) s).bind fun cdd s =>
    (decIndent s).bind fun _ s =>
    if b1 = 0x5B ∨ b1 = 0x4C then
      let s := incIndent s
      (readNewString s).bind fun cn1 s =>
      (liftOpt (setLastFieldClassName1 cdd cn1) s).bind fun cdd s =>
      (decIndent s).bind fun _ s => .ok cdd s
    else .ok cdd s

/-- `readNewObject`: tag check, classDesc, new handle, classdata. -/
def readNewObject : Nat → PState → WRes Unit
  | 0, _ => .fuel
  | fuel + 1, s =>
    let (b1, s) := smoothPop s
    if b1 != TC_OBJECT then .panic else
    let s := incIndent s
    (readClassDesc fuel s).bind fun cdd s =>
    let (_, s) := newHandle1 s
    (readClassData fuel cdd s).bind fun _ s =>
    decIndent s
termination_by structural fuel _ => fuel

/-- `readClassData`: walk the classes of the description from the most
super (last) down to index 0, reading field values and, when the flags call
for it, an objectAnnotation block.  `SC_EXTERNALIZABLE` without
`SC_BLOCK_DATA` panics (protocol version 1). -/
def readClassData : Nat → Option ClassDataDesc → PState → WRes Unit
  | 0, _, _ => .fuel
  | fuel + 1, ocdd, s =>
    let s := incIndent s
    match ocdd with
    | none => decIndent s
    | some cdd =>
      (readClassDataClasses fuel cdd (getClassCount cdd) s).bind fun _ s =>
      decIndent s
termination_by structural fuel _ _ => fuel

/-- The per-class loop of `readClassData`; `k` counts the classes still to
be processed, so the current class index is `k - 1`. -/
def readClassDataClasses : Nat → ClassDataDesc → Nat → PState → WRes Unit
  | 0, _, _, _ => .fuel
  | _ + 1, _, 0, s => .ok () s
  | fuel + 1, cdd, k + 1, s =>
    match getClassDetails cdd k with
    | none => .panic
    | some cd =>
      let s := incIndent s
      (if cd.isSC_SERIALIZABLE then
        let s := incIndent s
        (readFieldsValues fuel cd.fieldDescriptions s).bind fun _ s =>
        decIndent s
      else .ok () s).bind fun _ s =>
      if cd.isSC_EXTERNALIZABLE && !cd.isSC_BLOCK_DATA then .panic
      else
        let hasBlockData :=
          (cd.isSC_SERIALIZABLE && cd.isSC_WRITE_METHOD) || cd.isSC_EXTERNALIZABLE
        (if hasBlockData then
          let s := incIndent s
          (annUntilEnd fuel s).bind fun _ s => decIndent s
        else .ok () s).bind fun _ s =>
        (decIndent s).bind fun _ s =>
        readClassDataClasses fuel cdd k s
termination_by structural fuel _ _ _ => fuel

/-- The field-value loop of `readClassData`'s values section. -/
def readFieldsValues : Nat → List ClassField → PState → WRes Unit
  | 0, _, _ => .fuel
  | _ + 1, [], s => .ok () s
  | fuel + 1, cf :: rest, s =>
    (readClassDataField fuel cf s).bind fun _ s =>
    readFieldsValues fuel rest s
termination_by structural fuel _ _ => fuel

/-- `readClassDataField`: indent, read one value per the field's type code,
unindent. -/
def readClassDataField : Nat → ClassField → PState → WRes Unit
  | 0, _, _ => .fuel
  | fuel + 1, cf, s =>
    let s := incIndent s
    (readFieldValue fuel cf.typeCode s).bind fun _ s => decIndent s
termination_by structural fuel _ _ => fuel

/-- `readFieldValue`: dispatch on the type code; unknown codes panic. -/
def readFieldValue : Nat → Nat → PState → WRes Unit
  | 0, _, _ => .fuel
  | fuel + 1, typeCode, s =>
    if typeCode = 0x42 then .ok () (readByteField s)
    else if typeCode = 0x43 then .ok () (readCharField s)
    else if typeCode = 0x44 then .ok () (readDoubleField s)
    else if typeCode = 0x46 then .ok () (readFloatField s)
    else if typeCode = 0x49 then .ok () (readIntField s)
    else if typeCode = 0x4A then .ok () (readLongField s)
    else if typeCode = 0x53 then .ok () (readShortField s)
    else if typeCode = 0x5A then .ok () (readBooleanField s)
    else if typeCode = 0x5B then readArrayField fuel s
    else if typeCode = 0x4C then readObjectField fuel s
    else .panic
termination_by structural fuel _ _ => fuel

/-- `readArrayField`: null, nested array, or back-reference. -/
def readArrayField : Nat → PState → WRes Unit
  | 0, _ => .fuel
  | fuel + 1, s =>
    let s := incIndent s
    (let (x, s) := smoothPeek s
     if x = TC_NULL then readNullReference s
     else if x = TC_ARRAY then readNewArray fuel s
     else if x = TC_REFERENCE then
       (readPrevObject s).bind fun _ s => .ok () s
     else .panic).bind fun _ s => decIndent s
termination_by structural fuel _ => fuel

/-- `readObjectField`: the value forms an object field may take. -/
def readObjectField : Nat → PState → WRes Unit
  | 0, _ => .fuel
  | fuel + 1, s =>
    let s := incIndent s
    (let (x, s) := smoothPeek s
     if x = TC_OBJECT then readNewObject fuel s
     else if x = TC_REFERENCE then
       (readPrevObject s).bind fun _ s => .ok () s
     else if x = TC_NULL then readNullReference s
     else if x = TC_STRING then
       (readTC_STRING s).bind fun _ s => .ok () s
     else if x = TC_CLASS then readNewClass fuel s
     else if x = TC_ARRAY then readNewArray fuel s
     else if x = TC_ENUM then readNewEnum fuel s
     else .panic).bind fun _ s => decIndent s
termination_by structural fuel _ => fuel

/-- `readNewClass`: tag check, classDesc, new handle. -/
def readNewClass : Nat → PState → WRes Unit
  | 0, _ => .fuel
  | fuel + 1, s =>
    let (b1, s) := smoothPop s
    if b1 != TC_CLASS then .panic else
    let s := incIndent s
    (readClassDesc fuel s).bind fun _ s =>
    (decIndent s).bind fun _ s =>
    let (_, s) := newHandle1 s
    .ok () s
termination_by structural fuel _ => fuel

/-- `readNewArray`: tag check; the class description must exist (a `nil`
description dereferences in `getClassCount`), contain exactly one class,
and its name must begin with `[` (an empty name makes the `[0:1]` slice
panic); then a truncated 4-byte size and that many elements, each read with
the type code taken from the FIRST byte of the class name (always `[`). -/
def readNewArray : Nat → PState → WRes Unit
  | 0, _ => .fuel
  | fuel + 1, s =>
    let (b1, s) := smoothPop s
    if b1 != TC_ARRAY then .panic else
    let s := incIndent s
    (readClassDesc fuel s).bind fun ocdd s =>
    match ocdd with
    | none => .panic
    | some cdd =>
      if getClassCount cdd != 1 then .panic else
      match getClassDetails cdd 0 with
      | none => .panic
      | some cd =>
        match cd.className.toList with
        | [] => .panic
        | c0 :: _ =>
          if c0 != '[' then .panic else
          let (_, s) := newHandle1 s
          let (a1, s) := smoothPop s
          let (a2, s) := smoothPop s
          let (a3, s) := smoothPop s
          let (a4, s) := smoothPop s
          let size := i32TruncLen a1 a2 a3 a4
          let s := incIndent s
          (arrayElemsLoop fuel size c0.toNat s).bind fun _ s =>
          (decIndent s).bind fun _ s =>
          decIndent s
termination_by structural fuel _ => fuel

/-- The element loop of `readNewArray`. -/
def arrayElemsLoop : Nat → Nat → Nat → PState → WRes Unit
  | 0, _, _, _ => .fuel
  | _ + 1, 0, _, s => .ok () s
  | fuel + 1, size + 1, tcode, s =>
    let s := incIndent s
    (readFieldValue fuel tcode s).bind fun _ s =>
    (decIndent s).bind fun _ s =>
    arrayElemsLoop fuel size tcode s
termination_by structural fuel _ _ _ => fuel

/-- `content` (src/unnamed/part_001:1556): the stream-method dispatcher.
It always returns `(nil, nil)` — the dispatched walker readers are run for
their stream-consumption effect only, so the returned content value is
`nil` for every element (hence `WRes Unit`).  `TC_ENDBLOCKDATA`, unknown
tags, `TC_RESET`, and `TC_EXCEPTION` consume nothing. -/
def contentM : Nat → PState → WRes Unit
  | 0, _ => .fuel
  | fuel + 1, s =>
    let (tc, s) := smoothPeek s
    if tc = TC_NULL then (readNullReference s).bind fun _ s => .ok () s
    else if tc = TC_REFERENCE then
      (readPrevObject s).bind fun _ s => .ok () s
    else if tc = TC_CLASSDESC ∨ tc = TC_PROXYCLASSDESC then
      (readNewClassDesc fuel s).bind fun _ s => .ok () s
    else if tc = TC_OBJECT then readNewObject fuel s
    else if tc = TC_STRING ∨ tc = TC_LONGSTRING then
      (readNewString s).bind fun _ s => .ok () s
    else if tc = TC_ARRAY then readNewArray fuel s
    else if tc = TC_CLASS then readNewClass fuel s
    else if tc = TC_BLOCKDATA then readBlockData s
    else if tc = TC_ENDBLOCKDATA then .ok () s
    else if tc = TC_RESET then .ok () (handleReset s)
    else if tc = TC_BLOCKDATALONG then readLongBlockData s
    else if tc = TC_EXCEPTION then .ok () (readException s)
    else if tc = TC_ENUM then readNewEnum fuel s
    else .ok () s

end

/-! ### parseStream and the two entry points (src/unnamed/part_001:22-55, 244-298) -/

/-- Fresh parser state over a fully buffered input, as built by
`ParseSerializedObject(buf)`: `NewSerializedObjectParser` with
`SetMaxDataBlockSize(len(buf))`, handle counter at `0x7e0000`, empty
push-back buffer, class-description list, and indent. -/
def initPS (buf : List Nat) : PState :=
  { pb := [], rd := buf, size := (buf.length : Int),
    handleValue := baseWireHandle, cdds := [], indent := 0 }

/-- The RMI-prefix step of `parseStream` (lines 247-270): peek the first
byte; when it differs from `STREAM_MAGIC1` it is POPPED unconditionally —
bytes `0x50..0x54` are logged by their RMI packet names and every other
value is logged as an unknown RMI packet type; no error is possible. -/
def prefixPhase (s : PState) : PState :=
  let (b1, s2) := smoothPeek s
  if b1 != STREAM_MAGIC1 then (smoothPop s2).2 else s2

/-- The content loop of `parseStream` (lines 292-296): while
`_data.size() > 0`, read a content element; a non-nil error result breaks
the loop. -/
def contentLoopW : Nat → PState → WRes Unit
  | 0, _ => .fuel
  | fuel + 1, s =>
    if 0 < s.size then
      match readContentElement fuel s with
      | .ok true s2 => contentLoopW fuel s2
      | .ok false s2 => .ok () s2
      | .panic => .panic
      | .fuel => .fuel
    else .ok () s

/-- `parseStream`: optional RMI prefix byte, magic bytes (a mismatch only
prints and returns early — the returned `Bool` records whether the magic
check passed and the content loop ran), version bytes (a mismatch only
prints), then the content loop. -/
def parseStreamRun (fuel : Nat) (s : PState) : WRes Bool :=
  let s := prefixPhase s
  let (b1, s) := smoothPop s
  let (b2, s) := smoothPop s
  if b1 != STREAM_MAGIC1 || b2 != STREAM_MAGIC2 then .ok false s
  else
    let (_, s) := smoothPop s
    let (_, s) := smoothPop s
    let s := incIndent s
    (contentLoopW fuel s).bind fun _ s =>
    (decIndent s).bind fun _ s => .ok true s

/-- Result of the package-level `ParseSerializedObject(buf)` call. -/
inductive TRes where
  | ok : List Unit → Option String → TRes
  | panic : TRes
  | fuel : TRes
deriving Repr, DecidableEq

/-- `ParseSerializedObject(buf)` (src/unnamed/part_001:22-28): builds the
parser, runs `this.parseStream()` for its side effects, and then executes
`return nil, nil` — the decoded data and any print-only diagnostics are
discarded, so the returned content list is always `nil` and the returned
error is always `nil` (a walker panic aborts the process instead). -/
def ParseSerializedObject (fuel : Nat) (buf : List Nat) : TRes :=
  match parseStreamRun fuel (initPS buf) with
  | .ok _ _ => .ok [] none
  | .panic => .panic
  | .fuel => .fuel

/-- Result of the stream method `(*SerializedObjectParser).
ParseSerializedObject` (src/unnamed/part_001:31-55): the content list (one
entry per top-level element — always `nil` because `content` returns
`nil, nil`), or an error, or a panic, or non-termination. -/
inductive MRes where
  | ok : List (Option Unit) → MRes
  | err : String → MRes
  | panic : MRes
  | fuel : MRes
deriving Repr, DecidableEq

/-- The `for !this.end()` loop of the stream method: `end()` holds exactly
when the buffered reader has no bytes left (the push-back buffer is NOT
consulted); each iteration appends `content`'s (always-nil) result. -/
def methodLoop : Nat → List (Option Unit) → PState → MRes
  | 0, _, _ => .fuel
  | fuel + 1, acc, s =>
    match s.rd with
    | [] => .ok acc
    | _ :: _ =>
      match contentM fuel s with
      | .ok _ s2 => methodLoop fuel (acc ++ [none]) s2
      | .panic => .panic
      | .fuel => .fuel

/-- The stream method `ParseSerializedObject`: `magic()`, `version()`
(read through the buffered reader with proper EOF errors), then the
content loop over the `Smooth` cursor.  The method-path parser uses the
default `maxDataBlockSize` of the 1024-byte `bufio` buffer. -/
def methodParse (fuel : Nat) (buf : List Nat) : MRes :=
  match magicFn buf with
  | .error e => .err e
  | .ok rest1 =>
    match versionFn rest1 with
    | .error e => .err e
    | .ok rest2 =>
      methodLoop fuel []
        { pb := [], rd := rest2, size := 1024,
          handleValue := baseWireHandle, cdds := [], indent := 0 }

/-! ## Theorems for the claims -/

/-- C1: the claim says `ParseSerializedObject` returns the ordered list of
decoded top-level content elements, and the error (with no partial tree) on
failure.  The code instead executes `return nil, nil` unconditionally:
whenever the walk terminates, the returned content list is `nil` and the
error is `nil` — even for the one-element stream `AC ED 00 05 70` (claim:
`[Null]`), and even for the bad-magic stream `DE AD 00 05` (claim: an
error).  The stream-method variant returns one `nil` per element (its
`content` helper always returns `nil, nil`), losing the decoded values as
well, shown here on the single-string stream. -/
theorem c1_parse_returns_no_contents_and_no_error :
    (∀ fuel buf l e, ParseSerializedObject fuel buf = .ok l e → l = [] ∧ e = none) ∧
    ParseSerializedObject 10 [0xAC, 0xED, 0x00, 0x05, 0x70] = .ok [] none ∧
    ParseSerializedObject 10 [0xDE, 0xAD, 0x00, 0x05] = .ok [] none ∧
    methodParse 10 [0xAC, 0xED, 0x00, 0x05, 0x74, 0x00, 0x01, 0x41] = .ok [none] := by
  refine ⟨fun fuel buf l e h => ?_, by decide, by decide, by decide⟩
  unfold ParseSerializedObject at h
  split at h
  · cases h; exact ⟨rfl, rfl⟩
  · cases h
  · cases h

/-- The reset-example stream of C2:
`AC ED 00 05 74 00 01 'A' 79 74 00 01 'B' 71 00 7E 00 00`. -/
def c2Bytes : List Nat :=
  [0xAC, 0xED, 0x00, 0x05, 0x74, 0x00, 0x01, 0x41, 0x79,
   0x74, 0x00, 0x01, 0x42, 0x71, 0x00, 0x7E, 0x00, 0x00]

/-- The parser state reached on `c2Bytes` just as the `TC_RESET` tag has
been peeked into the push-back buffer: `handleReset` consumes nothing and
changes nothing, so every further `content` call reproduces this state. -/
def c2Stuck : PState :=
  { pb := [0x79], rd := [0x74, 0x00, 0x01, 0x42, 0x71, 0x00, 0x7E, 0x00, 0x00],
    size := 1023, handleValue := 0x7E0001, cdds := [], indent := 0 }

/-- From the stuck state at the un-consumed `TC_RESET` tag, the parse loop
never terminates, whatever the fuel. -/
theorem methodLoop_stuck_on_reset (fuel : Nat) :
    ∀ acc, methodLoop fuel acc c2Stuck = .fuel := by
  induction fuel with
  | zero => intro acc; rfl
  | succ f ih =>
    intro acc
    cases f with
    | zero => rfl
    | succ f2 =>
      have h : methodLoop (f2 + 2) acc c2Stuck
          = methodLoop (f2 + 1) (acc ++ [none]) c2Stuck := rfl
      rw [h]
      exact ih (acc ++ [none])

/-- C2: the claim says a `RESET` tag empties the handle table and the
class-descriptor cache so that the trailing reference in `c2Bytes` resolves
to the post-reset string "B".  In the code `handleReset` has an empty body:
it resets nothing, and because the dispatcher only peeked the `0x79` tag,
the byte is never consumed — the parse of `c2Bytes` therefore loops forever
at the `RESET` tag (it exhausts any fuel) instead of producing the claimed
three elements. -/
theorem c2_reset_stub_hangs_forever :
    (∀ s, handleReset s = s) ∧ ∀ fuel, methodParse fuel c2Bytes = .fuel := by
  refine ⟨fun s => rfl, fun fuel => ?_⟩
  match fuel with
  | 0 => rfl
  | 1 => rfl
  | 2 => rfl
  | f + 3 =>
    have h : methodParse (f + 3) c2Bytes
        = methodLoop (f + 1) [none, none] c2Stuck := rfl
    rw [h]
    exact methodLoop_stuck_on_reset (f + 1) [none, none]

/-- First recorded class for C3: handle `0x7E0000`. -/
def c3ClassA : ClassDetails :=
  { className := "A", refHandle := 0x7E0000, classDescFlags := 0x02,
    fieldDescriptions := [] }

/-- Second (super) recorded class for C3: handle `0x7E0001`. -/
def c3ClassB : ClassDetails :=
  { className := "B", refHandle := 0x7E0001, classDescFlags := 0x02,
    fieldDescriptions := [] }

/-- C3: the claim says every recorded class — including the first class of
each description — is a lookup candidate, and that a matched index `N`
yields the suffix `[N..]` of the class list.  On a recorded description
`[A, B]` (handles `0x7E0000`, `0x7E0001`): resolving the FIRST class's
handle panics (the loop increments `classIndex` before probing, so index 0
is never examined and the final probe dereferences nil), resolving the
second class's handle returns ALL classes `[A, B]` because
`buildClassDataDescFromIndex` ignores its index argument — not the claimed
suffix `[B]`. -/
theorem c3_reference_lookup_skips_index_zero_and_copies_all :
    lookupClassDesc [⟨[c3ClassA, c3ClassB]⟩] 0x7E0000 = .panicked ∧
    lookupClassDesc [⟨[c3ClassA, c3ClassB]⟩] 0x7E0001 =
      .found ⟨[c3ClassA, c3ClassB]⟩ ∧
    buildClassDataDescFromIndex ⟨[c3ClassA, c3ClassB]⟩ 1 = ⟨[c3ClassA, c3ClassB]⟩ ∧
    (⟨[c3ClassA, c3ClassB]⟩ : ClassDataDesc) ≠ ⟨[c3ClassB]⟩ := by
  exact ⟨rfl, rfl, rfl, by decide⟩

/-- C4 counterexample: the claim says an out-of-range reference fails with
a `BadReference` error.  For the empty handle table and wire handle
`0x7E0005`, `parseReference` returns successfully (`err = nil`) with a
`nil` reference — no error is produced.  The same holds for the wire
handle `0x80000000`, whose `int32` index wraps to the large positive
`2139226112` (so a table with more than `2^31 - 0x7E0000` entries would
resolve it — still without any `BadReference` error). -/
theorem c4_out_of_range_reference_yields_no_error :
    parseReference [] [0x00, 0x7E, 0x00, 0x05] = .ok (none, []) ∧
    parseReference [] [0x80, 0x00, 0x00, 0x00] = .ok (none, []) ∧
    wrapInt32 (asInt32 (beU32 0x80 0x00 0x00 0x00) - 0x7e0000) = 2139226112 := by
  exact ⟨rfl, rfl, by decide⟩

/-- A wire handle whose `int32`-wrapped index
`int32(refIdx - 0x7e0000)` is outside the handle table (the negation of
`parseReference`'s guard). -/
def refOutOfRange (handles : List Nat) (b1 b2 b3 b4 : Nat) : Prop :=
  ¬(-1 < wrapInt32 (asInt32 (beU32 b1 b2 b3 b4) - 0x7e0000) ∧
    wrapInt32 (asInt32 (beU32 b1 b2 b3 b4) - 0x7e0000) < (handles.length : Int))

instance (handles : List Nat) (b1 b2 b3 b4 : Nat) :
    Decidable (refOutOfRange handles b1 b2 b3 b4) := by
  unfold refOutOfRange
  infer_instance

/-- C4 amended: resolution of an out-of-range reference does NOT fail —
`parseReference` silently returns the absent (`nil`) value with no error
(the index is `int32(refIdx - 0x7e0000)`, with `int32` wraparound); only a
short read of the 4 handle bytes can make it fail. -/
theorem c4_amended_silent_nil_resolution (handles : List Nat)
    (b1 b2 b3 b4 : Nat) (rest : List Nat)
    (h : refOutOfRange handles b1 b2 b3 b4) :
    parseReference handles (b1 :: b2 :: b3 :: b4 :: rest) = .ok (none, rest) := by
  have e : parseReference handles (b1 :: b2 :: b3 :: b4 :: rest) =
      if -1 < wrapInt32 (asInt32 (beU32 b1 b2 b3 b4) - 0x7e0000) ∧
          wrapInt32 (asInt32 (beU32 b1 b2 b3 b4) - 0x7e0000) <
            (handles.length : Int) then
        .ok (handles.get?
          (wrapInt32 (asInt32 (beU32 b1 b2 b3 b4) - 0x7e0000)).toNat, rest)
      else .ok (none, rest) := rfl
  rw [e, if_neg h]

/-- C4 witness: the first wire handle `0x7E0000` against an empty handle
table resolves to `nil` without error, leaving the rest of the stream. -/
theorem c4_amended_witness :
    parseReference [] [0x00, 0x7E, 0x00, 0x00, 0x01, 0x02] =
      .ok (none, [0x01, 0x02]) :=
  c4_amended_silent_nil_resolution [] 0x00 0x7E 0x00 0x00 [0x01, 0x02] (by decide)

/-- C5 counterexample: the claim says version bytes `01 05` (u16 value
0x0105) are rejected with `BadVersion`.  `version()` accepts them — it
compares only the low byte — and a full parse of a stream with version
`0x0105` succeeds. -/
theorem c5_version_0105_accepted :
    versionFn [0x01, 0x05] = .ok [] ∧
    methodParse 10 [0xAC, 0xED, 0x01, 0x05, 0x70] = .ok [none] :=
  ⟨rfl, by decide⟩

/-- C5 amended: `version()` reads the version as a big-endian u16 but
fails only when the LOW byte of that value differs from 5 (`byte(ver) !=
STREAM_VERSION`); any high byte is accepted. -/
theorem c5_amended_low_byte_check (b1 b2 : Nat) (rest : List Nat)
    (_h1 : b1 < 256) (h2 : b2 < 256) :
    versionFn (b1 :: b2 :: rest) = .ok rest ↔ b2 = 5 := by
  have hm : beU16 b1 b2 % 256 = b2 := by
    unfold beU16
    omega
  have e : versionFn (b1 :: b2 :: rest) =
      if beU16 b1 b2 % 256 != STREAM_VERSION then
        .error "protocol version not recognized"
      else .ok rest := rfl
  rw [e, hm]
  rcases eq_or_ne b2 5 with h | h
  · subst h; simp [STREAM_VERSION]
  · simp [STREAM_VERSION, h]

/-- C5 witness: version bytes `01 05` pass the check (low byte is 5). -/
theorem c5_amended_witness :
    versionFn [0x01, 0x05] = .ok [] ↔ (0x05 : Nat) = 5 :=
  c5_amended_low_byte_check 0x01 0x05 [] (by decide) (by decide)

/-- C6: the claim says the 2-byte UTF length equals `256*b1 + b2` and the
4-byte block length equals the big-endian u32 of its bytes.  The walker's
expressions shift in `uint8` before masking, so the high bytes vanish: for
length bytes `01 00` `readUtf` computes 0 (big-endian: 256), for block
length bytes `00 00 01 00` `readLongBlockData` computes 0 (big-endian:
256); in general the UTF length is just the low byte. -/
theorem c6_lengths_truncate_high_bytes :
    utfLen 0x01 0x00 = 0 ∧ beU16 0x01 0x00 = 256 ∧
    longBlockLen 0x00 0x00 0x01 0x00 = 0 ∧ beU32 0x00 0x00 0x01 0x00 = 256 ∧
    ∀ b1 b2, utfLen b1 b2 = Nat.land (b2 % 256) 0xff := by
  refine ⟨rfl, rfl, rfl, rfl, fun b1 b2 => ?_⟩
  unfold utfLen
  have h : ((b1 % 256) <<< 8) % 256 = 0 := by
    rw [Nat.shiftLeft_eq]
    simp [Nat.mul_mod_left]
  rw [h]
  have h0 : Nat.land 0 0xff00 = 0 := rfl
  rw [h0, Nat.zero_add]

/-- C7: the claim says any read past the end of input fails with an
`UnexpectedEof`-kind error and no byte value is fabricated.  `Smooth.pop`
discards the read error (`b, _ := readUInt8()`) and returns the zero byte:
at EOF it fabricates `0x00`, and the stream `AC ED 00 05 77` — a
`TC_BLOCKDATA` tag with its length byte missing — parses to completion
with no error (the fabricated 0 becomes the block length). -/
theorem c7_eof_fabricates_zero_and_parse_succeeds :
    smoothPop ⟨[], [], 0, 0x7E0000, [], 0⟩ = (0, ⟨[], [], 0, 0x7E0000, [], 0⟩) ∧
    methodParse 10 [0xAC, 0xED, 0x00, 0x05, 0x77] = .ok [none] :=
  ⟨rfl, by decide⟩

set_option maxRecDepth 4000 in
/-- C8: a flag byte combining SC_SERIALIZABLE with SC_EXTERNALIZABLE, or
SC_SERIALIZABLE with SC_BLOCK_DATA, or SC_EXTERNALIZABLE with
SC_WRITE_METHOD, or with neither SC_SERIALIZABLE nor SC_EXTERNALIZABLE set
while nonzero, is fatal in both decoders: the walker's
`readClassDescInfo` validation panics (`classDescFlagsFatal`), and the
value layer's `classData` switch lands in the error default. -/
theorem c8_illegal_flag_combos_fatal : ∀ b < 256,
    ((Nat.land b SC_SERIALIZABLE ≠ 0 ∧ Nat.land b SC_EXTERNALIZABLE ≠ 0) ∨
     (Nat.land b SC_SERIALIZABLE ≠ 0 ∧ Nat.land b SC_BLOCK_DATA ≠ 0) ∨
     (Nat.land b SC_EXTERNALIZABLE ≠ 0 ∧ Nat.land b SC_WRITE_METHOD ≠ 0) ∨
     (Nat.land b SC_SERIALIZABLE = 0 ∧ Nat.land b SC_EXTERNALIZABLE = 0 ∧
       b ≠ 0)) →
    classDescFlagsFatal b = true ∧ classDataDispatch b = .errUnknownFlags := by
  decide

/-- C8 witness: flag byte `0x06` (SC_SERIALIZABLE | SC_EXTERNALIZABLE) is
fatal in both decoders. -/
theorem c8_illegal_flag_combos_witness :
    classDescFlagsFatal 0x06 = true ∧
      classDataDispatch 0x06 = .errUnknownFlags :=
  c8_illegal_flag_combos_fatal 0x06 (by decide) (by decide)

set_option maxRecDepth 4000 in
/-- C9 counterexample: the claim says a leading byte that is neither in
`{0x50..0x54}` nor the magic is neither consumed nor an error.  A leading
`0x00` IS consumed: the prefix step leaves exactly the fresh-parse state of
the remaining bytes, and the subsequent magic check passes on `AC ED` —
under the claimed behavior the magic check would have read `00 AC` and
failed. -/
theorem c9_nonmagic_leading_byte_is_consumed :
    prefixPhase (initPS [0x00, 0xAC, 0xED, 0x00, 0x05]) =
      initPS [0xAC, 0xED, 0x00, 0x05] ∧
    parseStreamRun 10 (initPS [0x00, 0xAC, 0xED, 0x00, 0x05]) =
      .ok true ⟨[0], [], 4, 0x7E0000, [], 0⟩ :=
  ⟨by decide, by decide⟩

/-- C9 amended: `parseStream` consumes EVERY leading byte different from
`0xAC` — the RMI bytes `0x50..0x54` and any other value alike (the latter
merely logged as an unknown RMI packet type) — without error, and the
parser is then in exactly the state of a fresh parse of the remaining
bytes, so the magic check and everything after it proceed as if the prefix
byte had not been there.  (The stream-method entry has no prefix step at
all and fails its magic check on prefixed input.) -/
theorem c9_amended_prefix_consumed_state_reset (p : Nat) (rest : List Nat)
    (h : p ≠ 0xAC) :
    prefixPhase (initPS (p :: rest)) = initPS rest := by
  have e : prefixPhase (initPS (p :: rest)) =
      if p != STREAM_MAGIC1 then
        { pb := [], rd := rest, size := ((p :: rest).length : Int) - 1,
          handleValue := baseWireHandle, cdds := [], indent := 0 }
      else
        { pb := [p], rd := rest, size := ((p :: rest).length : Int),
          handleValue := baseWireHandle, cdds := [], indent := 0 } := rfl
  have hb : p ≠ STREAM_MAGIC1 := h
  rw [e, if_pos (bne_iff_ne.mpr hb)]
  unfold initPS
  congr 1
  simp only [List.length_cons]
  omega

/-- C9 witness: the RMI Call byte `0x50` before the magic is consumed and
the parse continues from the fresh state of the remaining bytes. -/
theorem c9_amended_witness :
    (0x50 : Nat) ≠ 0xAC ∧
      prefixPhase (initPS (0x50 :: [0xAC, 0xED, 0x00, 0x05])) =
        initPS [0xAC, 0xED, 0x00, 0x05] :=
  ⟨by decide, c9_amended_prefix_consumed_state_reset 0x50
    [0xAC, 0xED, 0x00, 0x05] (by decide)⟩

/-- C10: the claim says the post-processor sets the value to the `size`
elements following the first (`annotations[1..size]`).  The code checks
`len(data) == size+1` but then assigns the Go slice `data[1:size]`, which
has only `size-1` elements: for size 1 and one element "X" the value is
empty, and for size 2 with elements "X","Y" the value is `["X"]` — the
last element is dropped in every case. -/
theorem c10_list_value_drops_last_element :
    listPostProc [] [.bytes [0, 0, 0, 1], .str "X"] = .ok [("value", .arr [])] ∧
    listPostProc [] [.bytes [0, 0, 0, 2], .str "X", .str "Y"] =
      .ok [("value", .arr [.str "X"])] ∧
    ([PPVal.str "X"] ≠ ([] : List PPVal)) := by
  refine ⟨rfl, rfl, by simp⟩

end GoPjs
